import Mathlib

/-!
Verification of the prompt-tester backend (`backend/app.py`).

The Flask handlers are embedded shallowly: each route handler becomes a pure
Lean function over an explicit store, request record, and a backend oracle
standing for the outbound HTTP call to the inference provider.  Python dicts
are association lists with first-match lookup and replace-or-append insertion,
matching insertion-ordered dicts with unique keys.
-/

set_option autoImplicit false

namespace PromptTester

/-! ### Python dict model -/

def dictGet {α : Type} : List (String × α) → String → Option α
  | [], _ => none
  | (k, v) :: rest, key => if k = key then some v else dictGet rest key

def dictContains {α : Type} (d : List (String × α)) (k : String) : Bool :=
  (dictGet d k).isSome

def dictInsert {α : Type} : List (String × α) → String → α → List (String × α)
  | [], k, v => [(k, v)]
  | (k', v') :: rest, k, v =>
      if k' = k then (k, v) :: rest else (k', v') :: dictInsert rest k v

def dictErase {α : Type} (d : List (String × α)) (k : String) : List (String × α) :=
  d.filter (fun kv => kv.1 ≠ k)

theorem dictGet_insert_self {α : Type} (d : List (String × α)) (k : String) (v : α) :
    dictGet (dictInsert d k v) k = some v := by
  induction d with
  | nil => simp [dictInsert, dictGet]
  | cons hd tl ih =>
      obtain ⟨k', v'⟩ := hd
      by_cases h : k' = k
      · simp [dictInsert, h, dictGet]
      · simp [dictInsert, h, dictGet, ih]

theorem dictGet_insert_ne {α : Type} (d : List (String × α)) (k k' : String) (v : α)
    (h : k' ≠ k) : dictGet (dictInsert d k' v) k = dictGet d k := by
  induction d with
  | nil => simp [dictInsert, dictGet, h]
  | cons hd tl ih =>
      obtain ⟨k0, v0⟩ := hd
      by_cases h0 : k0 = k'
      · subst h0
        simp [dictInsert, dictGet, h]
      · by_cases h1 : k0 = k
        · subst h1
          simp [dictInsert, h0, dictGet]
        · simp [dictInsert, h0, dictGet, h1, ih]

theorem dictContains_insert {α : Type} (d : List (String × α)) (k k' : String) (v : α)
    (h : dictContains d k = true) : dictContains (dictInsert d k' v) k = true := by
  by_cases hk : k' = k
  · subst hk
    simp [dictContains, dictGet_insert_self]
  · simpa [dictContains, dictGet_insert_ne d k k' v hk] using h

theorem dictGet_erase_ne {α : Type} (d : List (String × α)) (k k' : String)
    (h : k' ≠ k) : dictGet (dictErase d k') k = dictGet d k := by
  induction d with
  | nil => simp [dictErase, dictGet]
  | cons hd tl ih =>
      obtain ⟨k0, v0⟩ := hd
      by_cases h0 : k0 = k'
      · subst h0
        simp [dictErase, dictGet, h, Ne.symm h]
        simpa [dictErase] using ih
      · by_cases h1 : k0 = k
        · subst h1
          simp [dictErase, h0, dictGet]
        · simp [dictErase, h0, dictGet, h1]
          simpa [dictErase] using ih

theorem dictGet_erase_self {α : Type} (d : List (String × α)) (k : String) :
    dictGet (dictErase d k) k = none := by
  induction d with
  | nil => simp [dictErase, dictGet]
  | cons hd tl ih =>
      obtain ⟨k0, v0⟩ := hd
      by_cases h0 : k0 = k
      · simp [dictErase, h0]
        simpa [dictErase] using ih
      · simp [dictErase, h0, dictGet]
        simpa [dictErase] using ih

/-! ### Python string semantics -/

def pyIsSpace (c : Char) : Bool :=
  c = ' ' ∨ c = '\t' ∨ c = '\n' ∨ c = '\r' ∨ c = '\x0b' ∨ c = '\x0c'

/-- `str.strip()` with no arguments: drop leading and trailing whitespace. -/
def pyStrip (s : String) : String :=
  String.mk (((s.toList.dropWhile pyIsSpace).reverse.dropWhile pyIsSpace).reverse)

/-- `str.replace(old, new)` for a one-character pattern: substitute every
occurrence. -/
def pyReplaceChar (c0 c1 : Char) (s : String) : String :=
  String.mk (s.toList.map (fun c => if c = c0 then c1 else c))

/-- `str.lower()` (the identifiers in play are ASCII). -/
def pyLower (s : String) : String :=
  String.mk (s.toList.map Char.toLower)

/-- `id.lower().replace(" ", "_").replace("-", "_")` from `create_system_prompt`. -/
def normalizeId (s : String) : String :=
  pyReplaceChar '-' '_' (pyReplaceChar ' ' '_' (pyLower s))

/-! ### Data model -/

/-- One stored system-prompt preset (a value of the `system_prompts` dict). -/
structure Preset where
  name : String
  modules : List (String × String)
  order : List String
  description : String
  created_at : String
deriving DecidableEq, Repr

/-- The in-memory `system_prompts` dict. -/
def Store : Type := List (String × Preset)

instance : DecidableEq Store := by
  unfold Store
  infer_instance

def MODEL : String := "gpt-3.5-turbo"

def DEFAULT_PARAMS_temperature : Rat := Rat.mk' 7 10

def DEFAULT_PARAMS_max_tokens : Rat := Rat.mk' 1024 1

/-- `get_default_prompts()`: the seeded store. -/
def get_default_prompts : Store :=
  [("default",
    { name := "Default Assistant"
      modules := [("DEFAULT",
        "You are a helpful AI assistant. Provide clear, accurate, and concise responses.")]
      order := ["DEFAULT"]
      description := "General purpose helpful assistant"
      created_at := "2024-01-01T00:00:00Z" })]

/-- State of the persisted `system_prompts.json` file when the app starts. -/
inductive FileState where
  | absent
  | unreadable
  | valid (contents : Store)
deriving DecidableEq

/-- `load_prompts_from_file()`: seeds defaults only when the file is missing or
fails to load; an existing parseable file is returned verbatim. -/
def load_prompts_from_file : FileState → Store
  | .absent => get_default_prompts
  | .unreadable => get_default_prompts
  | .valid contents => contents

/-! ### Completions handler (`POST /api/completions`) -/

/-- Caller generation options.  Each field is `none` when the JSON key is
absent, `some none` when the key is present with value `null`, and
`some (some v)` when bound to a number. -/
structure UserOpts where
  temperature : Option (Option Rat) := none
  max_tokens : Option (Option Rat) := none
  seed : Option (Option Rat) := none
deriving DecidableEq, Repr

/-- The `openai_params` dict: `temperature` and `max_tokens` keys are always
present (possibly bound to null); `seed` is present only when the caller's
options had a `seed` key. -/
structure OpenAIParams where
  temperature : Option Rat
  max_tokens : Option Rat
  seed : Option (Option Rat)
deriving DecidableEq, Repr

/-- `openai_params` construction: `user_opts.get(k, DEFAULT_PARAMS[k])` for
temperature and max_tokens, plus `seed` copied verbatim when the key exists. -/
def buildOpenaiParams (uo : UserOpts) : OpenAIParams :=
  { temperature := match uo.temperature with
      | none => some DEFAULT_PARAMS_temperature
      | some v => v
    max_tokens := match uo.max_tokens with
      | none => some DEFAULT_PARAMS_max_tokens
      | some v => v
    seed := uo.seed }

/-- `openai_params` as an ordered dict, recording key presence. -/
def OpenAIParams.toDict (p : OpenAIParams) : List (String × Option Rat) :=
  [("temperature", p.temperature), ("max_tokens", p.max_tokens)] ++
    (match p.seed with
      | some v => [("seed", v)]
      | none => [])

/-- `{k: v for k, v in openai_params.items() if v is not None}`: the option
items that actually enter the outgoing payload. -/
def OpenAIParams.payloadItems (p : OpenAIParams) : List (String × Rat) :=
  p.toDict.filterMap (fun kv =>
    match kv.2 with
    | some v => some (kv.1, v)
    | none => none)

structure Message where
  role : String
  content : String
deriving DecidableEq, Repr

/-- The `messages` list: optional system message, history entries whose role is
user/assistant with truthy content, then the current user message. -/
def buildMessages (system_prompt_text : String) (history : List Message)
    (user_prompt : String) : List Message :=
  (if system_prompt_text ≠ "" then [⟨"system", system_prompt_text⟩] else []) ++
    history.filter (fun m => (m.role = "user" ∨ m.role = "assistant") ∧ m.content ≠ "") ++
    [⟨"user", user_prompt⟩]

/-- The JSON payload posted to the provider. -/
structure OutPayload where
  model : String
  messages : List Message
  params : List (String × Rat)
deriving DecidableEq, Repr

structure CompletionsRequest where
  systemPrompt : String := ""
  userPrompt : String := ""
  promptId : Option String := none
  conversationHistory : List Message := []
  options : UserOpts := {}
deriving DecidableEq, Repr

/-- Outcome of the handler before the outbound HTTP call: either an early
error response, or the request it is about to send. -/
inductive Prepared where
  | halt (status : Nat) (msg : String)
  | send (payload : OutPayload) (openai_params : OpenAIParams)
deriving DecidableEq, Repr

/-- `if not OPENAI_API_KEY`: absent or empty string is falsy. -/
def apiKeyTruthy : Option String → Bool
  | some k => k ≠ ""
  | none => false

/-- Module assembly on the completions path:
`"\n\n".join(modules.get(name, "") for name in order)`. -/
def assembleModules (p : Preset) : String :=
  String.intercalate "\n\n" (p.order.map (fun name => (dictGet p.modules name).getD ""))

/-- Common tail of the completions handler after the system-prompt text is
settled: build `openai_params`, `messages`, and the payload. -/
def completionsFinish (system_prompt_text : String) (user_prompt : String)
    (req : CompletionsRequest) : Prepared :=
  let openai_params := buildOpenaiParams req.options
  .send
    { model := MODEL
      messages := buildMessages system_prompt_text req.conversationHistory user_prompt
      params := openai_params.payloadItems }
    openai_params

/-- Lines 69-118 of `app.py`: everything the completions handler does before
the outbound request. -/
def completionsPrepare (apiKey : Option String) (store : Store)
    (req : CompletionsRequest) : Prepared :=
  if ¬ apiKeyTruthy apiKey then .halt 500 "OPENAI_API_KEY not set"
  else
    let system_prompt_text := pyStrip req.systemPrompt
    let user_prompt := pyStrip req.userPrompt
    if user_prompt = "" then .halt 400 "User prompt is required"
    else
      match (match req.promptId with
              | some p => if p = "" then none else some p
              | none => none) with
      | some pid =>
          match dictGet store pid with
          | none => .halt 404 ("System prompt '" ++ pid ++ "' not found")
          | some prompt_obj =>
              completionsFinish (assembleModules prompt_obj) user_prompt req
      | none => completionsFinish system_prompt_text user_prompt req

/-- The provider's `usage` object; fields may be missing. -/
structure BackendUsage where
  prompt_tokens : Option Nat := none
  completion_tokens : Option Nat := none
  total_tokens : Option Nat := none
deriving DecidableEq, Repr

/-- Outcome of the outbound HTTP call, one constructor per exception branch of
the handler. -/
inductive BackendResult where
  | success (content : String) (usage : BackendUsage) (finish_reason : Option String)
  | timeout
  | requestFailed (msg : String)
  | badFormat (missingKey : String)
deriving DecidableEq, Repr

structure Usage where
  prompt_tokens : Nat
  completion_tokens : Nat
  total_tokens : Nat
deriving DecidableEq, Repr

/-- The 200 response body of the completions handler. -/
structure Envelope where
  text : String
  model : String
  parameters_used : OpenAIParams
  usage : Usage
  finish_reason : Option String
deriving DecidableEq, Repr

inductive HttpResponse where
  | err (status : Nat) (msg : String)
  | ok (env : Envelope)
deriving DecidableEq, Repr

/-- The whole completions handler, with the outbound call abstracted as the
`backend` oracle. -/
def completions (apiKey : Option String) (backend : OutPayload → BackendResult)
    (store : Store) (req : CompletionsRequest) : HttpResponse :=
  match completionsPrepare apiKey store req with
  | .halt status msg => .err status msg
  | .send payload openai_params =>
      match backend payload with
      | .success content usage finish_reason =>
          .ok { text := content
                model := MODEL
                parameters_used := openai_params
                usage := { prompt_tokens := usage.prompt_tokens.getD 0
                           completion_tokens := usage.completion_tokens.getD 0
                           total_tokens := usage.total_tokens.getD 0 }
                finish_reason := finish_reason }
      | .timeout => .err 504 "Request timed out"
      | .requestFailed msg => .err 500 ("OpenAI request failed: " ++ msg)
      | .badFormat key => .err 500 ("Unexpected response format: missing " ++ key)

/-! ### Preset CRUD handlers -/

/-- Body of `POST /api/system-prompts`; `none` marks an absent JSON key. -/
structure CreateRequest where
  id : Option String := none
  name : Option String := none
  modules : Option (List (String × String)) := none
  order : Option (List String) := none
  description : Option String := none
deriving DecidableEq, Repr

def strFieldTruthy : Option String → Bool
  | some s => s ≠ ""
  | none => false

/-- The required-field loop: report the first field whose value is falsy
(absent, empty string, empty dict, empty list), in source order. -/
def modulesFieldTruthy : Option (List (String × String)) → Bool
  | some m => m ≠ []
  | none => false

def orderFieldTruthy : Option (List String) → Bool
  | some o => o ≠ []
  | none => false

def CreateRequest.missingRequired (d : CreateRequest) : Option String :=
  if ¬ strFieldTruthy d.id then some "id"
  else if ¬ strFieldTruthy d.name then some "name"
  else if ¬ modulesFieldTruthy d.modules then some "modules"
  else if ¬ orderFieldTruthy d.order then some "order"
  else none

inductive CrudResponse where
  | err (status : Nat) (msg : String)
  | created (pid : String) (p : Preset)
deriving DecidableEq, Repr

/-- `create_system_prompt`, returning the response and the store afterwards. -/
def createSystemPrompt (store : Store) (now : String) (d : CreateRequest) :
    CrudResponse × Store :=
  match d.missingRequired with
  | some field => (.err 400 ("Field '" ++ field ++ "' is required"), store)
  | none =>
      let pid := normalizeId (d.id.getD "")
      if dictContains store pid then
        (.err 409 "System prompt ID already exists", store)
      else
        let p : Preset :=
          { name := pyStrip (d.name.getD "")
            modules := d.modules.getD []
            order := d.order.getD []
            description := pyStrip (d.description.getD "")
            created_at := now }
        (.created pid p, dictInsert store pid p)

/-- `GET /api/system-prompts/<id>`: `none` is the 404 branch. -/
def getSystemPrompt (store : Store) (pid : String) : Option Preset :=
  dictGet store pid

/-- A JSON value in a position where the handler calls `.strip()` on it:
`.nonstring` stands for any value without that method (null, numbers,
booleans, lists, objects), where the call raises `AttributeError`. -/
inductive PyVal where
  | pstr (s : String)
  | nonstring
deriving DecidableEq, Repr

def PyVal.stripOrRaise : PyVal → Option String
  | .pstr s => some (pyStrip s)
  | .nonstring => none

/-- The `modules` value of an update body; `isinstance(..., dict)` fails on
`.nondict`. -/
inductive ModulesVal where
  | dict (m : List (String × String))
  | nondict
deriving DecidableEq, Repr

/-- The `order` value of an update body; `isinstance(..., list)` fails on
`.nonlist`. -/
inductive OrderVal where
  | list (l : List String)
  | nonlist
deriving DecidableEq, Repr

/-- Body of `PUT /api/system-prompts/<id>`; `none` marks an absent key. -/
structure UpdatePatch where
  name : Option PyVal := none
  description : Option PyVal := none
  modules : Option ModulesVal := none
  order : Option OrderVal := none
deriving DecidableEq, Repr

/-- Outcome of the update handler; `.crash` is an unhandled Python exception
escaping the handler (Flask's generic 500), distinct from every structured
JSON response. -/
inductive UpdateOutcome where
  | notFound
  | crash
  | ok (pid : String) (p : Preset)
deriving DecidableEq, Repr

/-- `if "name" in data and data["name"].strip(): ... = data["name"].strip()`;
`none` is an `AttributeError` from calling `.strip()` on a non-string. -/
def applyNameField (p0 : Preset) : Option PyVal → Option Preset
  | some v =>
      match v.stripOrRaise with
      | none => none
      | some s => some (if s ≠ "" then { p0 with name := s } else p0)
  | none => some p0

/-- `if "description" in data: ... = data["description"].strip()`; the empty
string is allowed here, unlike `name`. -/
def applyDescriptionField (p1 : Preset) : Option PyVal → Option Preset
  | some v =>
      match v.stripOrRaise with
      | none => none
      | some s => some { p1 with description := s }
  | none => some p1

/-- `if "modules" in data and isinstance(data["modules"], dict)`: a non-dict
value is skipped silently. -/
def applyModulesField (p2 : Preset) : Option ModulesVal → Preset
  | some (.dict m) => { p2 with modules := m }
  | _ => p2

/-- `if "order" in data and isinstance(data["order"], list)`: a non-list value
is skipped silently. -/
def applyOrderField (p3 : Preset) : Option OrderVal → Preset
  | some (.list l) => { p3 with order := l }
  | _ => p3

/-- `update_system_prompt`: the four patch fields are applied in sequence to
the record in place, so a `.strip()` crash on `description` leaves an earlier
`name` mutation applied. -/
def updateSystemPrompt (store : Store) (pid : String) (patch : UpdatePatch) :
    UpdateOutcome × Store :=
  match dictGet store pid with
  | none => (.notFound, store)
  | some p0 =>
      match applyNameField p0 patch.name with
      | none => (.crash, store)
      | some p1 =>
          let store1 := dictInsert store pid p1
          match applyDescriptionField p1 patch.description with
          | none => (.crash, store1)
          | some p2 =>
              let p4 := applyOrderField (applyModulesField p2 patch.modules) patch.order
              (.ok pid p4, dictInsert store1 pid p4)

inductive DeleteOutcome where
  | err (status : Nat) (msg : String)
  | ok (pid : String) (deleted : Preset) (message : String)
deriving DecidableEq, Repr

/-- `delete_system_prompt`. -/
def deleteSystemPrompt (store : Store) (pid : String) : DeleteOutcome × Store :=
  match dictGet store pid with
  | none => (.err 404 "System prompt not found", store)
  | some deleted =>
      if pid = "default" then
        (.err 400 "Cannot delete the default system prompt", store)
      else
        (.ok pid deleted ("System prompt '" ++ deleted.name ++ "' deleted successfully"),
         dictErase store pid)

/-- One mutating call against the store, for reachability arguments. -/
inductive StoreOp where
  | createOp (now : String) (d : CreateRequest)
  | updateOp (pid : String) (patch : UpdatePatch)
  | deleteOp (pid : String)
deriving Repr

def applyStoreOp (s : Store) : StoreOp → Store
  | .createOp now d => (createSystemPrompt s now d).2
  | .updateOp pid patch => (updateSystemPrompt s pid patch).2
  | .deleteOp pid => (deleteSystemPrompt s pid).2

def applyStoreOps (s : Store) (ops : List StoreOp) : Store :=
  ops.foldl applyStoreOp s

/-! ### Comparison handler (`POST /api/test-prompts`) -/

structure TestRequest where
  userPrompt : String := ""
  promptIds : List String := []
  options : UserOpts := {}
  modulesOrder : Option (List String) := none
deriving DecidableEq, Repr

inductive TestEntry where
  | failure (error : String)
  | success (system_prompt_name : String) (system_prompt_text : String)
      (text : String) (usage : Usage) (finish_reason : Option String)
      (parameters_used : OpenAIParams) (modules_used : List String)
deriving DecidableEq, Repr

def TestEntry.isFailure : TestEntry → Bool
  | .failure _ => true
  | .success _ _ _ _ _ _ _ => false

def TestEntry.modulesUsed : TestEntry → Option (List String)
  | .failure _ => none
  | .success _ _ _ _ _ _ mu => some mu

def TestEntry.systemText : TestEntry → Option String
  | .failure _ => none
  | .success _ t _ _ _ _ _ => some t

/-- Module assembly on the comparison path:
`"\n\n".join(modules.get(name, "") for name in order if modules.get(name))`;
only names bound to a non-empty text contribute. -/
def assembleFiltered (modules : List (String × String)) (order : List String) : String :=
  String.intercalate "\n\n" (order.filterMap (fun name =>
    match dictGet modules name with
    | some t => if t = "" then none else some t
    | none => none))

/-- The body of the per-preset loop in `test_prompts`: one result entry. -/
def testOneEntry (apiKey : Option String) (backend : OutPayload → BackendResult)
    (store : Store) (user_prompt : String) (options : UserOpts)
    (modules_order : Option (List String)) (pid : String) : TestEntry :=
  match dictGet store pid with
  | none => .failure ("System prompt '" ++ pid ++ "' not found")
  | some prompt_obj =>
      let order := match modules_order with
        | some l => if l = [] then prompt_obj.order else l
        | none => prompt_obj.order
      let full_system := assembleFiltered prompt_obj.modules order
      match completions apiKey backend store
          { systemPrompt := full_system
            userPrompt := user_prompt
            promptId := none
            conversationHistory := []
            options := options } with
      | .ok env =>
          .success prompt_obj.name full_system env.text env.usage env.finish_reason
            env.parameters_used order
      | .err _ msg => .failure msg

structure ComparisonReport where
  user_prompt : String
  results : List (String × TestEntry)
  test_count : Nat
  success_count : Nat
  model : String
deriving DecidableEq, Repr

inductive TestResponse where
  | err (status : Nat) (msg : String)
  | ok (report : ComparisonReport)
deriving DecidableEq, Repr

/-- `test_prompts`: validation, then the fan-out loop over the requested ids. -/
def testPrompts (apiKey : Option String) (backend : OutPayload → BackendResult)
    (store : Store) (req : TestRequest) : TestResponse :=
  let user_prompt := pyStrip req.userPrompt
  if user_prompt = "" then .err 400 "User prompt is required"
  else if req.promptIds = [] then .err 400 "At least one system prompt ID is required"
  else
    let results := req.promptIds.foldl
      (fun r pid => dictInsert r pid
        (testOneEntry apiKey backend store user_prompt req.options req.modulesOrder pid)) []
    .ok { user_prompt := user_prompt
          results := results
          test_count := req.promptIds.length
          success_count := (results.filter (fun kv => ¬ kv.2.isFailure)).length
          model := MODEL }

/-! ### General lemmas -/

theorem dictGet_foldl_insert {α : Type} (f : String → α) (pids : List String)
    (acc : List (String × α)) (pid : String) :
    dictGet (pids.foldl (fun r q => dictInsert r q (f q)) acc) pid =
      if pid ∈ pids then some (f pid) else dictGet acc pid := by
  induction pids generalizing acc with
  | nil => simp
  | cons p0 rest ih =>
      simp only [List.foldl_cons]
      rw [ih]
      by_cases hmem : pid ∈ rest
      · simp [hmem]
      · by_cases heq : pid = p0
        · subst heq
          simp [hmem, dictGet_insert_self]
        · simp [hmem, heq, dictGet_insert_ne _ _ _ _ (Ne.symm heq)]

theorem contains_default_applyStoreOp (s : Store) (op : StoreOp)
    (h : dictContains s "default" = true) :
    dictContains (applyStoreOp s op) "default" = true := by
  cases op with
  | createOp now d =>
      simp only [applyStoreOp, createSystemPrompt]
      cases d.missingRequired with
      | some field => simpa using h
      | none =>
          by_cases hc : dictContains s (normalizeId (d.id.getD "")) = true
          · simpa [hc] using h
          · simpa [hc] using dictContains_insert _ _ _ _ h
  | updateOp pid patch =>
      simp only [applyStoreOp, updateSystemPrompt]
      cases hg : dictGet s pid with
      | none => simpa using h
      | some p0 =>
          cases hn : applyNameField p0 patch.name with
          | none => simpa [hn] using h
          | some p1 =>
              cases hd : applyDescriptionField p1 patch.description with
              | none => simpa [hn, hd] using dictContains_insert s "default" pid p1 h
              | some p2 =>
                  simpa [hn, hd] using dictContains_insert _ "default" pid
                    (applyOrderField (applyModulesField p2 patch.modules) patch.order)
                    (dictContains_insert s "default" pid p1 h)
  | deleteOp pid =>
      simp only [applyStoreOp, deleteSystemPrompt]
      cases hg : dictGet s pid with
      | none => simpa using h
      | some p =>
          by_cases hd : pid = "default"
          · simpa [hd] using h
          · have herase := dictGet_erase_ne s "default" pid hd
            simpa [hd, dictContains, herase] using h

theorem contains_default_applyStoreOps (ops : List StoreOp) (s : Store)
    (h : dictContains s "default" = true) :
    dictContains (applyStoreOps s ops) "default" = true := by
  induction ops generalizing s with
  | nil => simpa [applyStoreOps] using h
  | cons op rest ih =>
      simpa [applyStoreOps] using ih _ (contains_default_applyStoreOp s op h)

/-! ### Claim C1 -/

/-- Modelled from the spec: `assemble(P)` as §8 words it, joining
`P.modules[name]` for `name` in `P.order` and omitting names absent from
`modules`. -/
def assembleSpecOmitting (p : Preset) : String :=
  String.intercalate "\n\n" (p.order.filterMap (fun name => dictGet p.modules name))

def c1Preset : Preset :=
  { name := "P"
    modules := [("A", "x")]
    order := ["A", "B"]
    description := ""
    created_at := "t" }

/-- C1 counterexample: with a preset whose order names a module absent from
`modules`, the completions handler produces the system text "x\n\n" (the
missing name contributes an empty segment plus a separator), while the claim's
omission semantics would give "x". -/
theorem completions_assembly_omission_cx :
    completionsPrepare (some "k") [("p", c1Preset)]
        { userPrompt := "hi", promptId := some "p" } =
      .send { model := MODEL
              messages := [⟨"system", "x\n\n"⟩, ⟨"user", "hi"⟩]
              params := [("temperature", Rat.mk' 7 10), ("max_tokens", Rat.mk' 1024 1)] }
        { temperature := some (Rat.mk' 7 10), max_tokens := some (Rat.mk' 1024 1),
          seed := none } ∧
    assembleSpecOmitting c1Preset = "x" ∧ ("x\n\n" : String) ≠ "x" := by
  refine ⟨by decide, by decide, by decide⟩

/-- C1 (amended): running the completions handler with a truthy `promptId`
bound to an existing key assembles the system-prompt text as
`"\n\n".join(modules.get(name, "") for name in order)` — names absent from
`modules` contribute empty segments rather than being omitted. -/
theorem completions_assembles_with_empty_segments
    (apiKey : Option String) (store : Store) (pid : String) (p : Preset)
    (req : CompletionsRequest)
    (hkey : apiKeyTruthy apiKey = true)
    (huser : pyStrip req.userPrompt ≠ "")
    (hpid : req.promptId = some pid) (hne : pid ≠ "")
    (hget : dictGet store pid = some p) :
    completionsPrepare apiKey store req =
      .send { model := MODEL
              messages := buildMessages
                (String.intercalate "\n\n"
                  (p.order.map (fun name => (dictGet p.modules name).getD "")))
                req.conversationHistory (pyStrip req.userPrompt)
              params := (buildOpenaiParams req.options).payloadItems }
        (buildOpenaiParams req.options) := by
  simp [completionsPrepare, hkey, huser, hpid, hne, hget, completionsFinish,
    assembleModules]

/-- C1 witness: the amended theorem applied to a concrete store and request. -/
theorem completions_assembles_with_empty_segments_witness :
    apiKeyTruthy (some "k") = true ∧ pyStrip "hi" ≠ "" ∧
    completionsPrepare (some "k") [("p", c1Preset)]
        { userPrompt := "hi", promptId := some "p" } =
      .send { model := MODEL
              messages := buildMessages
                (String.intercalate "\n\n"
                  (c1Preset.order.map (fun name => (dictGet c1Preset.modules name).getD "")))
                [] (pyStrip "hi")
              params := (buildOpenaiParams {}).payloadItems }
        (buildOpenaiParams {}) :=
  ⟨by decide, by decide,
    completions_assembles_with_empty_segments (some "k") [("p", c1Preset)] "p" c1Preset
      { userPrompt := "hi", promptId := some "p" }
      (by decide) (by decide) rfl (by decide) (by decide)⟩

/-! ### Claim C2 -/

/-- C2: for every non-empty user prompt and non-empty id list, the comparison
returns a whole report no matter what the backend does: each unknown key maps
to the failure entry naming it, `test_count` is the number of requested keys,
and `success_count` counts the result entries that are not failures. -/
theorem test_prompts_partial_failure
    (apiKey : Option String) (backend : OutPayload → BackendResult) (store : Store)
    (req : TestRequest)
    (huser : pyStrip req.userPrompt ≠ "") (hids : req.promptIds ≠ []) :
    ∃ r, testPrompts apiKey backend store req = .ok r ∧
      r.test_count = req.promptIds.length ∧
      r.success_count = (r.results.filter (fun kv => ¬ kv.2.isFailure)).length ∧
      ∀ pid, pid ∈ req.promptIds → dictGet store pid = none →
        dictGet r.results pid =
          some (.failure ("System prompt '" ++ pid ++ "' not found")) := by
  have heq : testPrompts apiKey backend store req = .ok
      { user_prompt := pyStrip req.userPrompt
        results := req.promptIds.foldl
          (fun r pid => dictInsert r pid
            (testOneEntry apiKey backend store (pyStrip req.userPrompt) req.options
              req.modulesOrder pid)) []
        test_count := req.promptIds.length
        success_count := ((req.promptIds.foldl
          (fun r pid => dictInsert r pid
            (testOneEntry apiKey backend store (pyStrip req.userPrompt) req.options
              req.modulesOrder pid)) []).filter (fun kv => ¬ kv.2.isFailure)).length
        model := MODEL } := by
    simp only [testPrompts]
    rw [if_neg huser, if_neg hids]
  refine ⟨_, heq, rfl, rfl, ?_⟩
  intro pid hmem hnone
  rw [dictGet_foldl_insert]
  simp only [hmem, if_pos]
  simp [testOneEntry, hnone]

/-- C2 witness: the concrete comparison from the spec, under a backend oracle
that succeeds, also checking the full report record including
`success_count == 1`. -/
theorem test_prompts_partial_failure_witness :
    pyStrip "Explain recursion" ≠ "" ∧ (["default", "nonexistent"] : List String) ≠ [] ∧
    (∃ r, testPrompts (some "k") (fun _ => .success "ok" {} (some "stop"))
        get_default_prompts
        { userPrompt := "Explain recursion", promptIds := ["default", "nonexistent"] } =
        .ok r ∧
      r.test_count = (["default", "nonexistent"] : List String).length ∧
      r.success_count = (r.results.filter (fun kv => ¬ kv.2.isFailure)).length ∧
      ∀ pid, pid ∈ (["default", "nonexistent"] : List String) →
        dictGet get_default_prompts pid = none →
        dictGet r.results pid =
          some (.failure ("System prompt '" ++ pid ++ "' not found"))) ∧
    testPrompts (some "k") (fun _ => .success "ok" {} (some "stop")) get_default_prompts
        { userPrompt := "Explain recursion", promptIds := ["default", "nonexistent"] } =
      .ok { user_prompt := "Explain recursion"
            results := [("default", .success "Default Assistant"
                "You are a helpful AI assistant. Provide clear, accurate, and concise responses."
                "ok" ⟨0, 0, 0⟩ (some "stop")
                ⟨some (Rat.mk' 7 10), some (Rat.mk' 1024 1), none⟩ ["DEFAULT"]),
              ("nonexistent", .failure "System prompt 'nonexistent' not found")]
            test_count := 2
            success_count := 1
            model := "gpt-3.5-turbo" } :=
  ⟨by decide, by decide,
    test_prompts_partial_failure (some "k") (fun _ => .success "ok" {} (some "stop"))
      get_default_prompts
      { userPrompt := "Explain recursion", promptIds := ["default", "nonexistent"] }
      (by decide) (by decide),
    by decide⟩

/-! ### Claim C3 -/

/-- C3 counterexample: with the API key unset, a completions call with an
empty `userPrompt` returns the 500 configuration error, not the 400
ValidationError — the key check runs first. -/
theorem completions_empty_prompt_unconfigured_cx :
    completions none (fun _ => .timeout) get_default_prompts { userPrompt := "" } =
      .err 500 "OPENAI_API_KEY not set" ∧
    completions none (fun _ => .timeout) get_default_prompts { userPrompt := "" } ≠
      .err 400 "User prompt is required" ∧
    (500 : Nat) ≠ 400 := by
  refine ⟨by decide, by decide, by decide⟩

/-- C3 (amended): when the API key is configured (non-empty), a completions
request whose `userPrompt` strips to the empty string fails with the 400
validation error, for every backend, store, and other request fields. -/
theorem completions_empty_prompt_validation
    (k : String) (backend : OutPayload → BackendResult) (store : Store)
    (req : CompletionsRequest)
    (hk : k ≠ "") (h : pyStrip req.userPrompt = "") :
    completions (some k) backend store req = .err 400 "User prompt is required" := by
  simp [completions, completionsPrepare, apiKeyTruthy, hk, h]

/-- C3 witness: a whitespace-only user prompt with every optional field
populated still yields the 400 validation error. -/
theorem completions_empty_prompt_validation_witness :
    ("k" : String) ≠ "" ∧ pyStrip "  \n " = "" ∧
    completions (some "k") (fun _ => .success "ok" {} none) get_default_prompts
      { systemPrompt := "sys", userPrompt := "  \n ", promptId := some "default",
        conversationHistory := [⟨"user", "old"⟩],
        options := { temperature := some (some (Rat.mk' 1 2)), seed := some (some (Rat.mk' 5 1)) } } =
      .err 400 "User prompt is required" :=
  ⟨by decide, by decide,
    completions_empty_prompt_validation "k" (fun _ => .success "ok" {} none)
      get_default_prompts
      { systemPrompt := "sys", userPrompt := "  \n ", promptId := some "default",
        conversationHistory := [⟨"user", "old"⟩],
        options := { temperature := some (some (Rat.mk' 1 2)), seed := some (some (Rat.mk' 5 1)) } }
      (by decide) (by decide)⟩

/-! ### Claim C4 -/

def c4Store : Store := [("my_preset", c1Preset)]

/-- C4 counterexample: a create request whose id normalizes to the existing
key `my_preset` but whose `name` field is empty fails with the 400
required-field error, not 409 Conflict — the required-field loop runs before
the conflict check. -/
theorem create_conflict_cx :
    normalizeId "My Preset" = "my_preset" ∧
    dictContains c4Store "my_preset" = true ∧
    createSystemPrompt c4Store "t"
        { id := some "My Preset", name := some "",
          modules := some [("A", "x")], order := some ["A"] } =
      (.err 400 "Field 'name' is required", c4Store) ∧
    (CrudResponse.err 400 "Field 'name' is required") ≠
      .err 409 "System prompt ID already exists" := by
  refine ⟨by decide, by decide, by decide, by decide⟩

/-- C4 (amended): a create request whose required fields (`id`, `name`,
`modules`, `order`) are all present and truthy, and whose id normalizes
(lowercase, spaces and hyphens to underscores) to an existing key, fails with
409 Conflict and leaves the store unchanged. -/
theorem create_normalized_conflict
    (store : Store) (now : String) (d : CreateRequest) (k : String)
    (hreq : d.missingRequired = none)
    (hnorm : normalizeId (d.id.getD "") = k)
    (hex : dictContains store k = true) :
    createSystemPrompt store now d = (.err 409 "System prompt ID already exists", store) := by
  simp [createSystemPrompt, hreq, hnorm, hex]

/-- C4 witness: creating `"My Preset"` while `my_preset` exists collides on
the normalized key. -/
theorem create_normalized_conflict_witness :
    (CreateRequest.missingRequired
      { id := some "My Preset", name := some "Name",
        modules := some [("A", "x")], order := some ["A"] }) = none ∧
    normalizeId "My Preset" = "my_preset" ∧
    dictContains c4Store "my_preset" = true ∧
    createSystemPrompt c4Store "t"
        { id := some "My Preset", name := some "Name",
          modules := some [("A", "x")], order := some ["A"] } =
      (.err 409 "System prompt ID already exists", c4Store) :=
  ⟨by decide, by decide, by decide,
    create_normalized_conflict c4Store "t"
      { id := some "My Preset", name := some "Name",
        modules := some [("A", "x")], order := some ["A"] }
      "my_preset" (by decide) (by decide) (by decide)⟩

/-! ### Claim C5 -/

/-- C5 counterexample: a prompts file that parses to the empty JSON object
loads as an empty store — the store starts empty yet no `"default"` entry is
seeded, so the invariant fails in a reachable initial state. -/
theorem default_invariant_cx :
    load_prompts_from_file (.valid []) = ([] : Store) ∧
    dictContains (applyStoreOps (load_prompts_from_file (.valid [])) []) "default" = false := by
  refine ⟨by decide, by decide⟩

/-- C5 (amended): the `"default"` preset is seeded when the prompts file is
absent or unreadable, and once a store contains the key `"default"`, no
sequence of create/update/delete operations removes it. -/
theorem default_preset_invariant :
    dictContains (load_prompts_from_file .absent) "default" = true ∧
    dictContains (load_prompts_from_file .unreadable) "default" = true ∧
    ∀ (s : Store) (ops : List StoreOp), dictContains s "default" = true →
      dictContains (applyStoreOps s ops) "default" = true := by
  refine ⟨by decide, by decide, ?_⟩
  intro s ops h
  exact contains_default_applyStoreOps ops s h

/-- C5 witness: the seeded store keeps its default entry across a create, a
forbidden delete of `"default"`, an update, and a delete of the new key. -/
theorem default_preset_invariant_witness :
    dictContains get_default_prompts "default" = true ∧
    dictContains (applyStoreOps get_default_prompts
      [.createOp "t"
        { id := some "extra", name := some "E",
          modules := some [("M", "m")], order := some ["M"] },
       .deleteOp "default",
       .updateOp "default" { name := some (.pstr "Renamed") },
       .deleteOp "extra"]) "default" = true :=
  ⟨by decide,
    default_preset_invariant.2.2 get_default_prompts
      [.createOp "t"
        { id := some "extra", name := some "E",
          modules := some [("M", "m")], order := some ["M"] },
       .deleteOp "default",
       .updateOp "default" { name := some (.pstr "Renamed") },
       .deleteOp "extra"] (by decide)⟩

/-! ### Claim C6 -/

/-- C6: deleting a present key other than `"default"` returns the removed
record and removes the key, so a subsequent lookup misses; deleting
`"default"` while it is present fails with the Forbidden error and leaves the
store unchanged. -/
theorem delete_semantics (store : Store) (k : String) (p : Preset) :
    (k ≠ "default" → dictGet store k = some p →
      deleteSystemPrompt store k =
        (.ok k p ("System prompt '" ++ p.name ++ "' deleted successfully"),
         dictErase store k) ∧
      dictGet (dictErase store k) k = none) ∧
    (dictContains store "default" = true →
      deleteSystemPrompt store "default" =
        (.err 400 "Cannot delete the default system prompt", store)) := by
  constructor
  · intro hk hget
    refine ⟨?_, dictGet_erase_self store k⟩
    simp [deleteSystemPrompt, hget, hk]
  · intro hc
    cases hg : dictGet store "default" with
    | none => simp [dictContains, hg] at hc
    | some q => simp [deleteSystemPrompt, hg]

def c6Store : Store := [("default", c1Preset), ("x", c1Preset)]

/-- C6 witness: both branches of the delete contract at a concrete store. -/
theorem delete_semantics_witness :
    (("x" : String) ≠ "default" ∧ dictGet c6Store "x" = some c1Preset ∧
      deleteSystemPrompt c6Store "x" =
        (.ok "x" c1Preset ("System prompt '" ++ c1Preset.name ++ "' deleted successfully"),
         dictErase c6Store "x") ∧
      dictGet (dictErase c6Store "x") "x" = none) ∧
    (dictContains c6Store "default" = true ∧
      deleteSystemPrompt c6Store "default" =
        (.err 400 "Cannot delete the default system prompt", c6Store)) :=
  ⟨⟨by decide, by decide,
    ((delete_semantics c6Store "x" c1Preset).1 (by decide) (by decide)).1,
    ((delete_semantics c6Store "x" c1Preset).1 (by decide) (by decide)).2⟩,
   ⟨by decide, (delete_semantics c6Store "default" c1Preset).2 (by decide)⟩⟩

/-! ### Claim C7 -/

def c7NullSeedReq : CompletionsRequest :=
  { userPrompt := "hi", options := { seed := some none } }

/-- C7 counterexample: a caller-supplied `seed: null` is filtered out of the
outgoing payload but still appears as a key of the `parameters_used` dict in
the response envelope, contradicting the claimed iff for `parameters_used`. -/
theorem seed_null_parameters_used_cx :
    completions (some "k") (fun _ => .success "ok" {} (some "stop")) [] c7NullSeedReq =
      .ok { text := "ok", model := MODEL
            parameters_used :=
              { temperature := some (Rat.mk' 7 10), max_tokens := some (Rat.mk' 1024 1),
                seed := some none }
            usage := ⟨0, 0, 0⟩, finish_reason := some "stop" } ∧
    ((OpenAIParams.toDict
        { temperature := some (Rat.mk' 7 10), max_tokens := some (Rat.mk' 1024 1),
          seed := some none }).any (fun kv => kv.1 = "seed")) = true ∧
    ((buildOpenaiParams c7NullSeedReq.options).payloadItems.any
      (fun kv => kv.1 = "seed")) = false ∧
    c7NullSeedReq.options.seed = some none := by
  refine ⟨by decide, by decide, by decide, by decide⟩

/-- C7 (amended): for every dispatching completions call, `seed` appears in
the outgoing payload iff the caller supplied a non-null seed (never
defaulted), `seed` appears as a key of `parameters_used` iff the caller
supplied the key at all (even bound to null), and a null `temperature` or
`max_tokens` is omitted from the payload. -/
theorem seed_and_null_option_handling (uo : UserOpts) :
    (((buildOpenaiParams uo).payloadItems.any (fun kv => kv.1 = "seed")) = true ↔
      ∃ v, uo.seed = some (some v)) ∧
    (((buildOpenaiParams uo).toDict.any (fun kv => kv.1 = "seed")) = true ↔
      uo.seed.isSome = true) ∧
    (uo.temperature = some none →
      ((buildOpenaiParams uo).payloadItems.any (fun kv => kv.1 = "temperature")) = false) ∧
    (uo.max_tokens = some none →
      ((buildOpenaiParams uo).payloadItems.any (fun kv => kv.1 = "max_tokens")) = false) ∧
    (∀ (apiKey : Option String) (store : Store) (req : CompletionsRequest)
        (payload : OutPayload) (params : OpenAIParams),
      req.options = uo → completionsPrepare apiKey store req = .send payload params →
      params = buildOpenaiParams uo ∧ payload.params = (buildOpenaiParams uo).payloadItems) := by
  refine ⟨?_, ?_, ?_, ?_, ?_⟩
  · rcases hs : uo.seed with _ | (_ | v) <;>
      rcases ht : uo.temperature with _ | (_ | tv) <;>
      rcases hm : uo.max_tokens with _ | (_ | mv) <;>
      simp [buildOpenaiParams, OpenAIParams.payloadItems, OpenAIParams.toDict, hs, ht, hm]
  · rcases hs : uo.seed with _ | sv <;>
      simp [buildOpenaiParams, OpenAIParams.toDict, hs]
  · intro ht
    rcases hs : uo.seed with _ | (_ | sv) <;>
      rcases hm : uo.max_tokens with _ | (_ | mv) <;>
      simp [buildOpenaiParams, OpenAIParams.payloadItems, OpenAIParams.toDict, ht, hs, hm]
  · intro hm
    rcases hs : uo.seed with _ | (_ | sv) <;>
      rcases ht : uo.temperature with _ | (_ | tv) <;>
      simp [buildOpenaiParams, OpenAIParams.payloadItems, OpenAIParams.toDict, hm, hs, ht]
  · intro apiKey store req payload params hopt h
    simp only [completionsPrepare] at h
    split at h
    · exact absurd h (by simp)
    · split at h
      · exact absurd h (by simp)
      · split at h
        · split at h
          · exact absurd h (by simp)
          · simp only [completionsFinish] at h
            cases h
            exact ⟨by rw [hopt], by rw [hopt]⟩
        · simp only [completionsFinish] at h
          cases h
          exact ⟨by rw [hopt], by rw [hopt]⟩

def c7Opts : UserOpts :=
  { temperature := some none, max_tokens := some none, seed := some (some (Rat.mk' 42 1)) }

def c7Req : CompletionsRequest := { userPrompt := "hi", options := c7Opts }

/-- C7 witness: with null temperature, null max_tokens, and seed 42, the
payload carries exactly the seed, and the handler's dispatched parameters
match the builders. -/
theorem seed_and_null_option_handling_witness :
    ((buildOpenaiParams c7Opts).payloadItems.any (fun kv => kv.1 = "seed")) = true ∧
    ((buildOpenaiParams c7Opts).payloadItems.any (fun kv => kv.1 = "temperature")) = false ∧
    ((buildOpenaiParams c7Opts).payloadItems.any (fun kv => kv.1 = "max_tokens")) = false ∧
    ({ temperature := none, max_tokens := none, seed := some (some (Rat.mk' 42 1)) }
        : OpenAIParams) = buildOpenaiParams c7Opts ∧
    ([("seed", Rat.mk' 42 1)] : List (String × Rat)) = (buildOpenaiParams c7Opts).payloadItems :=
  ⟨(seed_and_null_option_handling c7Opts).1.mpr ⟨Rat.mk' 42 1, rfl⟩,
   (seed_and_null_option_handling c7Opts).2.2.1 rfl,
   (seed_and_null_option_handling c7Opts).2.2.2.1 rfl,
   ((seed_and_null_option_handling c7Opts).2.2.2.2 (some "k") [] c7Req
     { model := MODEL, messages := [⟨"user", "hi"⟩], params := [("seed", Rat.mk' 42 1)] }
     { temperature := none, max_tokens := none, seed := some (some (Rat.mk' 42 1)) }
     rfl (by decide)).1,
   ((seed_and_null_option_handling c7Opts).2.2.2.2 (some "k") [] c7Req
     { model := MODEL, messages := [⟨"user", "hi"⟩], params := [("seed", Rat.mk' 42 1)] }
     { temperature := none, max_tokens := none, seed := some (some (Rat.mk' 42 1)) }
     rfl (by decide)).2⟩

/-! ### Claim C8 -/

/-- C8: updating a present key with a patch containing only a trimmed
non-empty `name` succeeds, and a subsequent get reflects the new name with
`modules`, `order`, `description`, and `created_at` untouched. -/
theorem update_name_roundtrip (store : Store) (pid : String) (p : Preset) (x : String)
    (hget : dictGet store pid = some p) (htrim : pyStrip x = x) (hx : x ≠ "") :
    ∃ store', updateSystemPrompt store pid { name := some (.pstr x) } =
        (.ok pid { p with name := x }, store') ∧
      getSystemPrompt store' pid = some { p with name := x } := by
  refine ⟨dictInsert (dictInsert store pid { p with name := x }) pid { p with name := x },
    ?_, ?_⟩
  · simp [updateSystemPrompt, hget, applyNameField, PyVal.stripOrRaise, htrim, hx,
      applyDescriptionField, applyModulesField, applyOrderField]
  · simp [getSystemPrompt, dictGet_insert_self]

/-- C8 witness: renaming the seeded default preset to "X" and reading it
back. -/
theorem update_name_roundtrip_witness :
    dictGet get_default_prompts "default" =
      some { name := "Default Assistant"
             modules := [("DEFAULT",
               "You are a helpful AI assistant. Provide clear, accurate, and concise responses.")]
             order := ["DEFAULT"]
             description := "General purpose helpful assistant"
             created_at := "2024-01-01T00:00:00Z" } ∧
    pyStrip "X" = "X" ∧ ("X" : String) ≠ "" ∧
    (∃ store', updateSystemPrompt get_default_prompts "default"
          { name := some (.pstr "X") } =
        (.ok "default"
          { name := "X"
            modules := [("DEFAULT",
              "You are a helpful AI assistant. Provide clear, accurate, and concise responses.")]
            order := ["DEFAULT"]
            description := "General purpose helpful assistant"
            created_at := "2024-01-01T00:00:00Z" }, store') ∧
      getSystemPrompt store' "default" =
        some { name := "X"
               modules := [("DEFAULT",
                 "You are a helpful AI assistant. Provide clear, accurate, and concise responses.")]
               order := ["DEFAULT"]
               description := "General purpose helpful assistant"
               created_at := "2024-01-01T00:00:00Z" }) :=
  ⟨by decide, by decide, by decide,
    update_name_roundtrip get_default_prompts "default"
      { name := "Default Assistant"
        modules := [("DEFAULT",
          "You are a helpful AI assistant. Provide clear, accurate, and concise responses.")]
        order := ["DEFAULT"]
        description := "General purpose helpful assistant"
        created_at := "2024-01-01T00:00:00Z" } "X" (by decide) (by decide) (by decide)⟩

/-! ### Claim C9 -/

/-- C9: an empty `modulesOrder` list is falsy and behaves exactly like an
omitted one, and a non-empty `modulesOrder` is used as the assembly order for
every requested preset and echoed as `modules_used` in each success entry. -/
theorem modules_order_override (apiKey : Option String)
    (backend : OutPayload → BackendResult) (store : Store) :
    (∀ req : TestRequest, req.modulesOrder = some [] →
      testPrompts apiKey backend store req =
        testPrompts apiKey backend store { req with modulesOrder := none }) ∧
    (∀ (user_prompt : String) (options : UserOpts) (l : List String)
        (pid : String) (p : Preset),
      l ≠ [] → dictGet store pid = some p →
      ∀ e : TestEntry,
        testOneEntry apiKey backend store user_prompt options (some l) pid = e →
        e.isFailure = false →
        e.modulesUsed = some l ∧ e.systemText = some (assembleFiltered p.modules l)) := by
  constructor
  · intro req hmo
    have hentry : ∀ pid, testOneEntry apiKey backend store (pyStrip req.userPrompt)
        req.options (some []) pid =
        testOneEntry apiKey backend store (pyStrip req.userPrompt) req.options none pid := by
      intro pid
      simp [testOneEntry]
    simp only [testPrompts, hmo]
    simp only [hentry]
  · intro up opts l pid p hl hget e he hfail
    subst he
    simp only [testOneEntry, hget, if_neg hl] at hfail ⊢
    cases hres : completions apiKey backend store
        { systemPrompt := assembleFiltered p.modules l, userPrompt := up,
          promptId := none, conversationHistory := [], options := opts } with
    | ok env =>
        simp [TestEntry.modulesUsed, TestEntry.systemText]
    | err s m =>
        rw [hres] at hfail
        simp [TestEntry.isFailure] at hfail

def c9Preset : Preset :=
  { name := "Q"
    modules := [("A", "a"), ("B", "b")]
    order := ["A"]
    description := ""
    created_at := "t" }

/-- C9 witness: both branches at a concrete store — an empty override equals
omission, and the override `["B", "A"]` is echoed and drives assembly. -/
theorem modules_order_override_witness :
    testPrompts (some "k") (fun _ => .success "ok" {} none) [("q", c9Preset)]
        { userPrompt := "hi", promptIds := ["q"], modulesOrder := some [] } =
      testPrompts (some "k") (fun _ => .success "ok" {} none) [("q", c9Preset)]
        { userPrompt := "hi", promptIds := ["q"], modulesOrder := none } ∧
    (["B", "A"] : List String) ≠ [] ∧
    dictGet [("q", c9Preset)] "q" = some c9Preset ∧
    (testOneEntry (some "k") (fun _ => .success "ok" {} none) [("q", c9Preset)]
        "hi" {} (some ["B", "A"]) "q").modulesUsed = some ["B", "A"] ∧
    (testOneEntry (some "k") (fun _ => .success "ok" {} none) [("q", c9Preset)]
        "hi" {} (some ["B", "A"]) "q").systemText =
      some (assembleFiltered c9Preset.modules ["B", "A"]) :=
  ⟨(modules_order_override (some "k") (fun _ => .success "ok" {} none) [("q", c9Preset)]).1
      { userPrompt := "hi", promptIds := ["q"], modulesOrder := some [] } rfl,
   by decide, by decide,
   ((modules_order_override (some "k") (fun _ => .success "ok" {} none) [("q", c9Preset)]).2
      "hi" {} ["B", "A"] "q" c9Preset (by decide) (by decide) _ rfl (by decide)).1,
   ((modules_order_override (some "k") (fun _ => .success "ok" {} none) [("q", c9Preset)]).2
      "hi" {} ["B", "A"] "q" c9Preset (by decide) (by decide) _ rfl (by decide)).2⟩

/-! ### Claim C10 -/

/-- C10: updating a present key with a patch binding `name` or `description`
to a non-string value makes the handler call `.strip()` on it and raise an
unhandled exception (an unstructured 500), rather than any structured
response. -/
theorem update_nonstring_crash (store : Store) (pid : String) (p : Preset)
    (patch : UpdatePatch)
    (hget : dictGet store pid = some p)
    (hbad : (∃ v, patch.name = some v ∧ v.stripOrRaise = none) ∨
            (∃ v, patch.description = some v ∧ v.stripOrRaise = none)) :
    ∃ s, updateSystemPrompt store pid patch = (.crash, s) := by
  rcases hbad with ⟨v, hv, hvs⟩ | ⟨v, hv, hvs⟩
  · exact ⟨store, by simp [updateSystemPrompt, hget, applyNameField, hv, hvs]⟩
  · cases hn : applyNameField p patch.name with
    | none => exact ⟨store, by simp [updateSystemPrompt, hget, hn]⟩
    | some p1 =>
        exact ⟨dictInsert store pid p1, by
          simp [updateSystemPrompt, hget, hn, applyDescriptionField, hv, hvs]⟩

/-- C10 witness: a `name` bound to a non-string (e.g. null) crashes the update
of the seeded default preset, leaving the store as it was. -/
theorem update_nonstring_crash_witness :
    dictGet get_default_prompts "default" =
      some { name := "Default Assistant"
             modules := [("DEFAULT",
               "You are a helpful AI assistant. Provide clear, accurate, and concise responses.")]
             order := ["DEFAULT"]
             description := "General purpose helpful assistant"
             created_at := "2024-01-01T00:00:00Z" } ∧
    (∃ s, updateSystemPrompt get_default_prompts "default"
        { name := some .nonstring } = (.crash, s)) ∧
    updateSystemPrompt get_default_prompts "default" { name := some .nonstring } =
      (.crash, get_default_prompts) :=
  ⟨by decide,
   update_nonstring_crash get_default_prompts "default"
     { name := "Default Assistant"
       modules := [("DEFAULT",
         "You are a helpful AI assistant. Provide clear, accurate, and concise responses.")]
       order := ["DEFAULT"]
       description := "General purpose helpful assistant"
       created_at := "2024-01-01T00:00:00Z" }
     { name := some .nonstring } (by decide) (Or.inl ⟨.nonstring, rfl, rfl⟩),
   by decide⟩

end PromptTester
